import Mathlib

/-!
Verification of the Doctor-Patient appointment portal backend
(src/backend/server.js), a single Express + Mongoose request-handling
module.  The store (MongoDB via Mongoose) is embedded as an explicit
state `DB` of three collections; every endpoint handler becomes a pure
function from a request and a `DB` to an HTTP response and the next
`DB`.  External collaborators (bcryptjs, jsonwebtoken, the mail relay)
are modelled idealized: the hasher is an injective tagging function,
the token signer carries its payload and signing secret structurally,
and email dispatch is a pure no-op (fire-and-forget, never affecting
responses or the store).
-/

/-! ## JSON values

Responses are `res.status(...).json(...)`; we embed the JSON bodies as a
first-order value type.  Session tokens appear inside JSON as opaque
scalars (`Json.tok`), mirroring the serialized JWT string. -/

inductive Role where
  | doctor
  | patient
deriving DecidableEq

/-- Payload of a signed session token.  `jwt.sign({ doctorId: ... })` and
`jwt.sign({ patientId: ... })` embed the record identifier under a
role-specific field name; the `role` component models that field name. -/
structure TokenPayload where
  role : Role
  id : Nat
  iat : Nat
  exp : Nat
deriving DecidableEq

/-- A signed JWT, modelled structurally: `sig` is the secret used to sign
(an idealized MAC — verification succeeds iff the secrets agree). -/
structure Token where
  payload : TokenPayload
  sig : String
deriving DecidableEq

inductive Json where
  | null
  | str (s : String)
  | num (n : Int)
  | bool (b : Bool)
  | tok (t : Token)
  | arr (elems : List Json)
  | obj (fields : List (String × Json))

/-- An HTTP response: status code plus JSON body. -/
structure Resp where
  status : Nat
  body : Json

/-- Shorthand for the ubiquitous `res.status(s).json({ message })` shape. -/
def msgJson (s : String) : Json :=
  Json.obj [("message", Json.str s)]

mutual

/-- Does a JSON value contain an object field named `k`, at any depth? -/
def jsonHasKey (k : String) : Json → Bool
  | .obj fs => jsonFieldsHaveKey k fs
  | .arr xs => jsonElemsHaveKey k xs
  | _ => false

def jsonFieldsHaveKey (k : String) : List (String × Json) → Bool
  | [] => false
  | (n, v) :: rest => n == k || jsonHasKey k v || jsonFieldsHaveKey k rest

def jsonElemsHaveKey (k : String) : List Json → Bool
  | [] => false
  | v :: rest => jsonHasKey k v || jsonElemsHaveKey k rest

end

/-- Top-level field lookup in a JSON object. -/
def jsonGet (k : String) : Json → Option Json
  | .obj fs => (fs.find? (fun f => f.1 == k)).map (fun f => f.2)
  | _ => none

/-! ## External collaborators (idealized) -/

/-- External password hasher (bcryptjs `hash`), idealized as an injective
tagging function; the salted-hash property that matters to the handlers
is only that `compare pw (hash pw)` succeeds and comparing against a
different password's hash fails. -/
def bcryptHash (pw : String) : String :=
  "bcrypt$" ++ pw

/-- bcryptjs `compare`. -/
def bcryptCompare (pw h : String) : Bool :=
  bcryptHash pw == h

/-- `process.env.JWT_SECRET || "mysecret"` — the process-wide signing
secret with its hardcoded fallback. -/
def jwtSecret : String := "mysecret"

/-- `jwt.sign(payload, secret, { expiresIn: "1h" })` at clock time `now`
(seconds): payload gets `iat = now` and `exp = now + 3600`. -/
def jwtSign (r : Role) (id : Nat) (now : Nat) : Token :=
  { payload := { role := r, id := id, iat := now, exp := now + 3600 }, sig := jwtSecret }

/-- `jwt.verify(token, secret)` at clock time `now`: the signature must
match the process secret and the token must not be expired. -/
def jwtVerify (t : Token) (now : Nat) : Bool :=
  t.sig == jwtSecret && now < t.payload.exp

/-! ## Data model (the three Mongoose schemas) -/

/-- A stored availability subdocument (`AvailabilitySchema`): `day`,
`startTime`, `endTime` are required strings, `location` defaults to
`"Office"`. -/
structure Availability where
  day : String
  startTime : String
  endTime : String
  location : String
deriving DecidableEq

/-- An availability entry as it arrives in a JSON request body, where any
field may be absent. -/
structure AvailabilityInput where
  day : Option String
  startTime : Option String
  endTime : Option String
  location : Option String
deriving DecidableEq

/-- Mongoose cast-and-validate of one availability subdocument on save:
the three required string paths must be present and non-empty (the
`required` validator rejects empty strings); a missing `location` takes
the schema default `"Office"`. -/
def castAvailability (e : AvailabilityInput) : Option Availability :=
  match e.day, e.startTime, e.endTime with
  | some d, some s, some t =>
    if d ≠ "" ∧ s ≠ "" ∧ t ≠ "" then
      some { day := d, startTime := s, endTime := t, location := e.location.getD "Office" }
    else none
  | _, _, _ => none

/-- Validation of a whole availability list: document save fails (and the
handler's catch returns 500) if any entry is invalid. -/
def castAvailabilityList : List AvailabilityInput → Option (List Availability)
  | [] => some []
  | e :: rest =>
    match castAvailability e, castAvailabilityList rest with
    | some a, some tl => some (a :: tl)
    | _, _ => none

/-- A stored `Doctor` document. -/
structure Doctor where
  _id : Nat
  name : String
  email : String
  password : String
  specialty : String
  experience : Int
  location : String
  availability : List Availability
deriving DecidableEq

/-- A stored `Patient` document.  `PatientSchema` declares `name`,
`email`, `password`, `age`, `gender`, `phone`, `address` and nothing
else — in particular no `appointments` array (the commented-out line in
the source leaves it undeclared). -/
structure Patient where
  _id : Nat
  name : String
  email : String
  password : String
  age : Int
  gender : String
  phone : String
  address : String
deriving DecidableEq

/-- A stored `Appointment` document (`AppointmentSchema`): `patientName`,
`patientEmail`, `doctorId`, `timeSlot`, `status` (default `"Booked"`).
The schema declares no `patientId` path, so the `patientId` passed to
`new Appointment(...)` in the booking handler is stripped by mongoose
strict mode and never persisted. -/
structure Appointment where
  _id : Nat
  patientName : String
  patientEmail : String
  doctorId : Nat
  timeSlot : String
  status : String
deriving DecidableEq

/-- The document store: the three collections plus a fresh-identifier
counter standing in for ObjectId generation. -/
structure DB where
  doctors : List Doctor
  patients : List Patient
  appointments : List Appointment
  nextId : Nat
deriving DecidableEq

def emptyDB : DB := { doctors := [], patients := [], appointments := [], nextId := 0 }

/-! ## Truthiness of request fields

The handlers validate with JavaScript truthiness: a missing or empty
string is falsy, and a missing or zero number is falsy. -/

def truthyStr : Option String → Bool
  | some s => s ≠ ""
  | none => false

def truthyInt : Option Int → Bool
  | some n => n ≠ 0
  | none => false

/-! ## Serializers (the JSON shapes built by the handlers) -/

def availabilityJson (a : Availability) : Json :=
  Json.obj [("day", Json.str a.day), ("startTime", Json.str a.startTime),
            ("endTime", Json.str a.endTime), ("location", Json.str a.location)]

/-- `Doctor.find().select("-password")`: the full doctor document with
the `password` path excluded. -/
def doctorPublicJson (d : Doctor) : Json :=
  Json.obj [("_id", Json.num (d._id : Int)), ("name", Json.str d.name),
            ("email", Json.str d.email), ("specialty", Json.str d.specialty),
            ("experience", Json.num d.experience), ("location", Json.str d.location),
            ("availability", Json.arr (d.availability.map availabilityJson))]

def appointmentJson (a : Appointment) : Json :=
  Json.obj [("_id", Json.num (a._id : Int)), ("patientName", Json.str a.patientName),
            ("patientEmail", Json.str a.patientEmail), ("doctorId", Json.num (a.doctorId : Int)),
            ("timeSlot", Json.str a.timeSlot), ("status", Json.str a.status)]

/-! ## Patient back-reference updates

The booking and cancellation handlers call
`Patient.findByIdAndUpdate(patientId, { $push / $pull: { appointments: ... } })`.
`PatientSchema` declares no `appointments` path and mongoose strict mode
(the default) silently drops update paths absent from the schema, so the
stored patient documents are not modified; the call resolves and
succeeds as a no-op store round-trip.  The spec records exactly this:
"schema does not declare this field, so effect is a no-op". -/

def patientPushAppointment (_pid : Option Nat) (_aid : Nat) (db : DB) : DB :=
  db

def patientPullAppointment (_pid : Option Nat) (_aid : Nat) (db : DB) : DB :=
  db

/-! ## Authentication middleware -/

/-- `authenticateToken`: 401 when no bearer token is supplied, 403 when
verification fails, otherwise the wrapped handler runs.  `auth` is the
parsed bearer token of the request (`none` = header absent). -/
def authenticateToken (auth : Option Token) (now : Nat) (db : DB)
    (handler : Token → Resp × DB) : Resp × DB :=
  match auth with
  | none => ({ status := 401, body := msgJson "Access denied" }, db)
  | some t =>
    if jwtVerify t now then handler t
    else ({ status := 403, body := msgJson "Invalid token" }, db)

/-! ## POST /api/registerDoctor -/

structure RegisterDoctorReq where
  name : Option String
  email : Option String
  password : Option String
  specialty : Option String
  experience : Option Int
  location : Option String
  availability : Option (List AvailabilityInput)
deriving DecidableEq

def registerDoctorValid (r : RegisterDoctorReq) : Bool :=
  truthyStr r.name && truthyStr r.email && truthyStr r.password &&
  truthyStr r.specialty && truthyInt r.experience && truthyStr r.location &&
  r.availability.isSome

def registerDoctor (r : RegisterDoctorReq) (db : DB) : Resp × DB :=
  if !registerDoctorValid r then
    ({ status := 400, body := msgJson "All fields are required." }, db)
  else
    match db.doctors.find? (fun d => d.email == r.email.getD "") with
    | some _ => ({ status := 400, body := msgJson "Doctor with this email already exists." }, db)
    | none =>
      match castAvailabilityList (r.availability.getD []) with
      | none => ({ status := 500, body := msgJson "Internal server error." }, db)
      | some av =>
        let d : Doctor :=
          { _id := db.nextId, name := r.name.getD "", email := r.email.getD "",
            password := bcryptHash (r.password.getD ""), specialty := r.specialty.getD "",
            experience := r.experience.getD 0, location := r.location.getD "", availability := av }
        ({ status := 201,
           body := Json.obj [("message", Json.str "Doctor registered successfully!"),
                             ("doctor", Json.obj [("id", Json.num (d._id : Int)),
                                                  ("name", Json.str d.name),
                                                  ("email", Json.str d.email)])] },
         { db with doctors := db.doctors ++ [d], nextId := db.nextId + 1 })

/-! ## POST /api/registerPatient -/

structure RegisterPatientReq where
  name : Option String
  email : Option String
  password : Option String
  age : Option Int
  gender : Option String
  phone : Option String
  address : Option String
deriving DecidableEq

def registerPatientValid (r : RegisterPatientReq) : Bool :=
  truthyStr r.name && truthyStr r.email && truthyStr r.password &&
  truthyInt r.age && truthyStr r.gender && truthyStr r.phone && truthyStr r.address

def registerPatient (r : RegisterPatientReq) (db : DB) : Resp × DB :=
  if !registerPatientValid r then
    ({ status := 400, body := msgJson "All fields are required." }, db)
  else
    match db.patients.find? (fun p => p.email == r.email.getD "") with
    | some _ => ({ status := 400, body := msgJson "Patient with this email already exists." }, db)
    | none =>
      let p : Patient :=
        { _id := db.nextId, name := r.name.getD "", email := r.email.getD "",
          password := bcryptHash (r.password.getD ""), age := r.age.getD 0,
          gender := r.gender.getD "", phone := r.phone.getD "", address := r.address.getD "" }
      ({ status := 201, body := msgJson "Patient registered successfully!" },
       { db with patients := db.patients ++ [p], nextId := db.nextId + 1 })

/-! ## POST /api/loginPatient and POST /api/loginDoctor -/

structure LoginReq where
  email : Option String
  password : Option String
deriving DecidableEq

def loginPatient (r : LoginReq) (db : DB) (now : Nat) : Resp × DB :=
  if !(truthyStr r.email && truthyStr r.password) then
    ({ status := 400, body := msgJson "Email and password required." }, db)
  else
    match db.patients.find? (fun p => p.email == r.email.getD "") with
    | none => ({ status := 401, body := msgJson "Patient not found." }, db)
    | some p =>
      if !bcryptCompare (r.password.getD "") p.password then
        ({ status := 401, body := msgJson "Invalid password." }, db)
      else
        ({ status := 200,
           body := Json.obj [("success", Json.bool true),
                             ("message", Json.str "Patient logged in successfully!"),
                             ("token", Json.tok (jwtSign Role.patient p._id now)),
                             ("patient", Json.obj [("id", Json.num (p._id : Int)),
                                                   ("name", Json.str p.name),
                                                   ("email", Json.str p.email),
                                                   ("age", Json.num p.age),
                                                   ("gender", Json.str p.gender),
                                                   ("phone", Json.str p.phone),
                                                   ("address", Json.str p.address)])] },
         db)

/-- `Doctor.findOne({ email })` in the doctor login, which performs no
field validation first: mongoose removes `undefined` values from query
filters, so an absent email yields `findOne({})`, matching the first
stored document. -/
def doctorFindByEmail (e : Option String) (db : DB) : Option Doctor :=
  match e with
  | some s => db.doctors.find? (fun d => d.email == s)
  | none => db.doctors.head?

def loginDoctor (r : LoginReq) (db : DB) (now : Nat) : Resp × DB :=
  match doctorFindByEmail r.email db with
  | none => ({ status := 401, body := msgJson "Doctor not found." }, db)
  | some d =>
    match r.password with
    | none =>
      -- bcryptjs `compare` rejects a non-string input; the handler's catch returns 500.
      ({ status := 500, body := msgJson "Server error." }, db)
    | some pw =>
      if !bcryptCompare pw d.password then
        ({ status := 401, body := msgJson "Invalid password." }, db)
      else
        ({ status := 200,
           body := Json.obj [("success", Json.bool true),
                             ("message", Json.str "Doctor logged in successfully!"),
                             ("token", Json.tok (jwtSign Role.doctor d._id now))] },
         db)

/-! ## GET /api/doctor/:doctorId (token-guarded) -/

structure GetDoctorReq where
  doctorId : Nat
  auth : Option Token
deriving DecidableEq

def getDoctor (r : GetDoctorReq) (db : DB) (now : Nat) : Resp × DB :=
  authenticateToken r.auth now db (fun _ =>
    match db.doctors.find? (fun d => d._id == r.doctorId) with
    | none => ({ status := 404, body := msgJson "Doctor not found." }, db)
    | some d =>
      ({ status := 200,
         body := Json.obj [("availability", Json.arr (d.availability.map availabilityJson))] },
       db))

/-! ## POST /api/setAvailability (token-guarded) -/

structure SetAvailabilityReq where
  doctorId : Option Nat
  availability : Option (List AvailabilityInput)
  auth : Option Token
deriving DecidableEq

def setAvailability (r : SetAvailabilityReq) (db : DB) (now : Nat) : Resp × DB :=
  authenticateToken r.auth now db (fun _ =>
    if !(r.doctorId.isSome && r.availability.isSome) then
      ({ status := 400, body := msgJson "Invalid request format." }, db)
    else
      match db.doctors.find? (fun d => d._id == r.doctorId.getD 0) with
      | none => ({ status := 404, body := msgJson "Doctor not found." }, db)
      | some d =>
        match castAvailabilityList (r.availability.getD []) with
        | none => ({ status := 500, body := msgJson "Server error." }, db)
        | some av =>
          ({ status := 200,
             body := Json.obj [("message", Json.str "Availability updated successfully!"),
                               ("doctor", Json.obj [("_id", Json.num (d._id : Int)),
                                                    ("availability", Json.arr (av.map availabilityJson))])] },
           { db with
             doctors := db.doctors.map (fun x =>
               if x._id == r.doctorId.getD 0 then { x with availability := av } else x) }))

/-! ## POST /api/bookAppointment

Booking is the one handler whose interleaving with concurrent requests
matters (the check-then-insert race), so it is embedded as a small-step
machine: one step per completed `await` on the store, yielding at each
suspension point, exactly as the single-threaded event loop does. -/

structure BookReq where
  doctorId : Option Nat
  patientId : Option Nat
  patientName : Option String
  patientEmail : Option String
  timeSlot : Option String
deriving DecidableEq

def validBookReq (r : BookReq) : Bool :=
  r.doctorId.isSome && r.patientId.isSome && truthyStr r.patientName &&
  truthyStr r.patientEmail && truthyStr r.timeSlot

/-- Control state of one in-flight booking request: about to run the
existence check, about to insert, about to push onto the patient
back-reference, or finished with a response. -/
inductive BookPhase where
  | start
  | toInsert
  | toPush (a : Appointment)
  | responded (resp : Resp)

/-- `Appointment.findOne({ doctorId, timeSlot })` returned a document. -/
def slotTaken (did : Nat) (slot : String) (db : DB) : Bool :=
  (db.appointments.find? (fun a => a.doctorId == did && a.timeSlot == slot)).isSome

/-- The document built by `new Appointment({...})` in the booking handler
(`patientId` is stripped: it is not a path of `AppointmentSchema`). -/
def mkBookedAppointment (r : BookReq) (fresh : Nat) : Appointment :=
  { _id := fresh, patientName := r.patientName.getD "",
    patientEmail := r.patientEmail.getD "", doctorId := r.doctorId.getD 0,
    timeSlot := r.timeSlot.getD "", status := "Booked" }

/-- One scheduler slice of the booking handler: the synchronous code up
to and including the next completed store operation. -/
def bookStep (r : BookReq) : BookPhase → DB → BookPhase × DB
  | .start, db =>
    if !validBookReq r then
      (.responded { status := 400, body := msgJson "All fields are required." }, db)
    else if slotTaken (r.doctorId.getD 0) (r.timeSlot.getD "") db then
      (.responded { status := 400, body := msgJson "Time slot already booked!" }, db)
    else (.toInsert, db)
  | .toInsert, db =>
    let a : Appointment := mkBookedAppointment r db.nextId
    (.toPush a, { db with appointments := db.appointments ++ [a], nextId := db.nextId + 1 })
  | .toPush a, db =>
    (.responded { status := 201,
                  body := Json.obj [("message", Json.str "Appointment booked successfully!"),
                                    ("appointment", appointmentJson a)] },
     patientPushAppointment r.patientId a._id db)
  | .responded resp, db => (.responded resp, db)

def bookPhaseResp : BookPhase → Resp
  | .responded resp => resp
  | _ => { status := 500, body := msgJson "Internal server error" }

/-- The booking handler run to completion without interleaving (a lone
request reaches its response in at most three store steps). -/
def bookAppointment (r : BookReq) (db : DB) : Resp × DB :=
  let s1 := bookStep r BookPhase.start db
  let s2 := bookStep r s1.1 s1.2
  let s3 := bookStep r s2.1 s2.2
  (bookPhaseResp s3.1, s3.2)

/-- Interleaved execution of two concurrent booking requests `rA`, `rB`
under a schedule: `false` runs the next step of `rA`, `true` of `rB`. -/
def bookRun2 (rA rB : BookReq) : List Bool → (BookPhase × BookPhase) × DB →
    (BookPhase × BookPhase) × DB
  | [], st => st
  | b :: rest, ((pA, pB), db) =>
    if b then
      let s := bookStep rB pB db
      bookRun2 rA rB rest ((pA, s.1), s.2)
    else
      let s := bookStep rA pA db
      bookRun2 rA rB rest ((s.1, pB), s.2)

/-! ## POST /api/cancelAppointment (token-guarded, transactional)

The handler opens a store session and transaction; any store failure
inside the `try` is caught, the transaction aborted, and a 500 returned,
leaving the store as it was.  `CancelFailure` injects a store failure at
a chosen step (or none) to model the fault-atomicity behaviour. -/

inductive CancelFailure where
  | noFail
  | atLookup
  | atDelete
  | atDetach
deriving DecidableEq

structure CancelReq where
  appointmentId : Option Nat
  patientId : Option Nat
  patientEmail : Option String
  auth : Option Token
deriving DecidableEq

def cancelAppointment (r : CancelReq) (db : DB) (now : Nat) (fail : CancelFailure) : Resp × DB :=
  authenticateToken r.auth now db (fun _ =>
    match r.appointmentId with
    | none => ({ status := 400, body := msgJson "Appointment ID required." }, db)
    | some aid =>
      if fail = CancelFailure.atLookup then
        ({ status := 500, body := msgJson "Internal server error." }, db)
      else
        match db.appointments.find? (fun a => a._id == aid) with
        | none => ({ status := 404, body := msgJson "Appointment not found." }, db)
        | some _ =>
          if fail = CancelFailure.atDelete then
            ({ status := 500, body := msgJson "Internal server error." }, db)
          else
            let s1 : DB := { db with appointments := db.appointments.filter (fun a => !(a._id == aid)) }
            if fail = CancelFailure.atDetach then
              ({ status := 500, body := msgJson "Internal server error." }, db)
            else
              ({ status := 200, body := msgJson "Appointment cancelled successfully!" },
               patientPullAppointment r.patientId aid s1))

/-! ## GET /api/searchDoctors -/

def searchDoctors (db : DB) : Resp × DB :=
  ({ status := 200, body := Json.arr (db.doctors.map doctorPublicJson) }, db)

/-! ## The full API surface -/

inductive ApiRequest where
  | registerDoctorReq (r : RegisterDoctorReq)
  | registerPatientReq (r : RegisterPatientReq)
  | loginPatientReq (r : LoginReq) (now : Nat)
  | loginDoctorReq (r : LoginReq) (now : Nat)
  | getDoctorReq (r : GetDoctorReq) (now : Nat)
  | setAvailabilityReq (r : SetAvailabilityReq) (now : Nat)
  | bookAppointmentReq (r : BookReq)
  | cancelAppointmentReq (r : CancelReq) (now : Nat) (fail : CancelFailure)
  | searchDoctorsReq

def handle : ApiRequest → DB → Resp × DB
  | .registerDoctorReq r, db => registerDoctor r db
  | .registerPatientReq r, db => registerPatient r db
  | .loginPatientReq r now, db => loginPatient r db now
  | .loginDoctorReq r now, db => loginDoctor r db now
  | .getDoctorReq r now, db => getDoctor r db now
  | .setAvailabilityReq r now, db => setAvailability r db now
  | .bookAppointmentReq r, db => bookAppointment r db
  | .cancelAppointmentReq r now fail, db => cancelAppointment r db now fail
  | .searchDoctorsReq, db => searchDoctors db

/-- States of the store reachable from an empty store through the public
endpoints (any request sequence, any injected cancel failure). -/
inductive Reachable : DB → Prop where
  | init : Reachable emptyDB
  | step (req : ApiRequest) (db : DB) : Reachable db → Reachable (handle req db).2

/-! ## Spec-side serializer for the availability round-trip

The round-trip property compares the availability `get` output against
"the list that was set".  A request entry serializes to exactly its
present fields — this definition follows the spec's words ("returned
verbatim, same day/start/end/location"), not the code, and is the
comparison point for the round-trip claim. -/

def optField (k : String) : Option String → List (String × Json)
  | some v => [(k, Json.str v)]
  | none => []

def availabilityInputJson (e : AvailabilityInput) : Json :=
  Json.obj (optField "day" e.day ++ optField "startTime" e.startTime ++
            optField "endTime" e.endTime ++ optField "location" e.location)

/-! ## Concrete instances used by witnesses and counterexamples -/

def bookReqC1 : BookReq :=
  { doctorId := some 1, patientId := some 2, patientName := some "Bob",
    patientEmail := some "b@x.com", timeSlot := some "Mon-09:00" }

def dbC1 : DB := (bookAppointment bookReqC1 emptyDB).2

def tokC2 : Token := jwtSign Role.patient 2 0

def apptC2 : Appointment :=
  { _id := 7, patientName := "Bob", patientEmail := "b@x.com", doctorId := 1,
    timeSlot := "Mon-09:00", status := "Booked" }

def dbC2 : DB := { doctors := [], patients := [], appointments := [apptC2], nextId := 8 }

def reqC2 : CancelReq :=
  { appointmentId := some 7, patientId := some 2, patientEmail := some "b@x.com",
    auth := some tokC2 }

def reqC2miss : CancelReq :=
  { appointmentId := some 99, patientId := some 2, patientEmail := some "b@x.com",
    auth := some tokC2 }

def raceReq : BookReq :=
  { doctorId := some 1, patientId := some 2, patientName := some "Bob",
    patientEmail := some "b@x.com", timeSlot := some "Mon-09:00" }

/-- Schedule: both requests complete their existence checks before either
inserts (`false` = request A runs its next store step, `true` = B). -/
def raceSchedule : List Bool := [false, true, false, false, true, true]

def raceResult : (BookPhase × BookPhase) × DB :=
  bookRun2 raceReq raceReq raceSchedule ((BookPhase.start, BookPhase.start), emptyDB)

def tokC4 : Token := jwtSign Role.doctor 0 0

def insC4 : List AvailabilityInput :=
  [{ day := some "Mon", startTime := some "09:00", endTime := some "10:00", location := none }]

def docC4 : Doctor :=
  { _id := 0, name := "Dr. A", email := "a@x.com", password := bcryptHash "pw",
    specialty := "Cardio", experience := 5, location := "NYC", availability := [] }

def dbC4 : DB := { doctors := [docC4], patients := [], appointments := [], nextId := 1 }

def reqC4 : SetAvailabilityReq :=
  { doctorId := some 0, availability := some insC4, auth := some tokC4 }

def dbC4' : DB := (setAvailability reqC4 dbC4 0).2

def patC5 : Patient :=
  { _id := 3, name := "Carol", email := "c@x.com", password := bcryptHash "pwc",
    age := 30, gender := "F", phone := "123", address := "addr" }

def docC5 : Doctor :=
  { _id := 4, name := "Dr. B", email := "d@x.com", password := bcryptHash "pwd",
    specialty := "Derm", experience := 3, location := "LA", availability := [] }

def dbC5 : DB := { doctors := [docC5], patients := [patC5], appointments := [], nextId := 5 }

def docC7 : Doctor :=
  { _id := 0, name := "Dr. A", email := "a@x.com", password := bcryptHash "pw",
    specialty := "Cardio", experience := 5, location := "NYC", availability := [] }

def patC7 : Patient :=
  { _id := 1, name := "Bob", email := "b@x.com", password := bcryptHash "pw2",
    age := 40, gender := "M", phone := "555", address := "addr2" }

/-- A store holding only the duplicate doctor (spec scenario: a doctor
re-registers the same email on a store with no patients at all). -/
def dbC7d : DB := { doctors := [docC7], patients := [], appointments := [], nextId := 1 }

/-- A store holding only the duplicate patient. -/
def dbC7p : DB := { doctors := [], patients := [patC7], appointments := [], nextId := 2 }

def regDocC7 : RegisterDoctorReq :=
  { name := some "Dr. A2", email := some "a@x.com", password := some "pwX",
    specialty := some "Cardio", experience := some 7, location := some "SF",
    availability := some [] }

def regPatC7 : RegisterPatientReq :=
  { name := some "Bob2", email := some "b@x.com", password := some "pwY",
    age := some 41, gender := some "M", phone := some "556", address := some "addr3" }

def regDocC8 : RegisterDoctorReq :=
  { name := some "Dr. Z", email := some "z@x.com", password := some "pw",
    specialty := some "Cardio", experience := some 0, location := some "NYC",
    availability := some [] }

def regPatC8 : RegisterPatientReq :=
  { name := some "Zed", email := some "zz@x.com", password := some "pw",
    age := some 0, gender := some "M", phone := some "557", address := some "addr" }

def tokC9 : Token := jwtSign Role.doctor 1 0

def apptC9 : Appointment :=
  { _id := 6, patientName := "Bob", patientEmail := "b@x.com", doctorId := 1,
    timeSlot := "Tue-10:00", status := "Booked" }

def patC9 : Patient :=
  { _id := 3, name := "Bob", email := "b@x.com", password := bcryptHash "pw",
    age := 40, gender := "M", phone := "555", address := "addr" }

def dbC9 : DB := { doctors := [], patients := [patC9], appointments := [apptC9], nextId := 9 }

/-- Cancellation request whose body `patientId` (2) is not the id of the
patient the appointment refers to (patC9 has id 3 and the appointment's
`patientEmail`). -/
def reqC9 : CancelReq :=
  { appointmentId := some 6, patientId := some 2, patientEmail := some "b@x.com",
    auth := some tokC9 }

def bookReqC10 : BookReq :=
  { doctorId := some 1, patientId := some 2, patientName := some "Ann",
    patientEmail := some "ann@x.com", timeSlot := some "Wed-11:00" }

def dbC10 : DB := (handle (ApiRequest.bookAppointmentReq bookReqC10) emptyDB).2

def apptC10 : Appointment :=
  { _id := 0, patientName := "Ann", patientEmail := "ann@x.com", doctorId := 1,
    timeSlot := "Wed-11:00", status := "Booked" }

/-- A fully-specified availability input (every field present), for the
amended round-trip witness. -/
def insC4w : List AvailabilityInput :=
  [{ day := some "Tue", startTime := some "10:00", endTime := some "11:00",
     location := some "Clinic" }]

def avC4w : List Availability :=
  [{ day := "Tue", startTime := "10:00", endTime := "11:00", location := "Clinic" }]

def reqC4w : SetAvailabilityReq :=
  { doctorId := some 0, availability := some insC4w, auth := some tokC4 }

/-! ## Helper lemmas -/

theorem slotTaken_of_mem {db : DB} {a : Appointment} {did : Nat} {slot : String}
    (ha : a ∈ db.appointments) (h1 : a.doctorId = did) (h2 : a.timeSlot = slot) :
    slotTaken did slot db = true := by
  unfold slotTaken
  rw [List.find?_isSome]
  exact ⟨a, ha, by simp [h1, h2]⟩

theorem bookAppointment_conflict_eq {r : BookReq} {db : DB}
    (hv : validBookReq r = true)
    (hst : slotTaken (r.doctorId.getD 0) (r.timeSlot.getD "") db = true) :
    bookAppointment r db = ({ status := 400, body := msgJson "Time slot already booked!" }, db) := by
  simp [bookAppointment, bookStep, hv, hst, bookPhaseResp]

theorem bookAppointment_fresh_eq {r : BookReq} {db : DB}
    (hv : validBookReq r = true)
    (hst : slotTaken (r.doctorId.getD 0) (r.timeSlot.getD "") db = false) :
    bookAppointment r db =
      ({ status := 201,
         body := Json.obj [("message", Json.str "Appointment booked successfully!"),
                           ("appointment", appointmentJson (mkBookedAppointment r db.nextId))] },
       { db with appointments := db.appointments ++ [mkBookedAppointment r db.nextId],
                 nextId := db.nextId + 1 }) := by
  simp [bookAppointment, bookStep, hv, hst, bookPhaseResp, patientPushAppointment]

theorem bookAppointment_invalid_eq {r : BookReq} {db : DB}
    (hv : validBookReq r = false) :
    bookAppointment r db = ({ status := 400, body := msgJson "All fields are required." }, db) := by
  simp [bookAppointment, bookStep, hv, bookPhaseResp]

theorem bookAppointment_201_inv {r : BookReq} {db : DB}
    (h : (bookAppointment r db).1.status = 201) :
    validBookReq r = true ∧ slotTaken (r.doctorId.getD 0) (r.timeSlot.getD "") db = false := by
  by_cases hv : validBookReq r = true
  · by_cases hst : slotTaken (r.doctorId.getD 0) (r.timeSlot.getD "") db = true
    · rw [bookAppointment_conflict_eq hv hst] at h
      simp at h
    · exact ⟨hv, by simpa using hst⟩
  · rw [bookAppointment_invalid_eq (by simpa using hv)] at h
    simp at h

/-! ## Claims -/

/-- C1: when the five required booking fields are present and an
appointment with the same `(doctorId, timeSlot)` already exists, the
booking request is rejected with 400 "Time slot already booked!" and the
store — in particular the appointment collection — is unchanged. -/
theorem bookAppointment_double_booking_rejected (r : BookReq) (db : DB)
    (hv : validBookReq r = true)
    (hex : ∃ a ∈ db.appointments, a.doctorId = r.doctorId.getD 0 ∧ a.timeSlot = r.timeSlot.getD "") :
    bookAppointment r db = ({ status := 400, body := msgJson "Time slot already booked!" }, db) := by
  obtain ⟨a, ha, h1, h2⟩ := hex
  exact bookAppointment_conflict_eq hv (slotTaken_of_mem ha h1 h2)

/-- C1 witness: the spec scenario — a first booking succeeds with 201,
and repeating the identical booking hits the conflict and alters
nothing. -/
theorem bookAppointment_double_booking_rejected_witness :
    (bookAppointment bookReqC1 emptyDB).1.status = 201 ∧
    bookAppointment bookReqC1 dbC1 =
      ({ status := 400, body := msgJson "Time slot already booked!" }, dbC1) := by
  refine ⟨rfl, ?_⟩
  exact bookAppointment_double_booking_rejected bookReqC1 dbC1 (by decide)
    ⟨mkBookedAppointment bookReqC1 0, by decide, rfl, rfl⟩

/-- C3: the check-then-insert race.  Two identical concurrent booking
requests, interleaved so that both existence checks complete before
either insert, BOTH succeed with 201 and two appointments for the same
`(doctorId, timeSlot)` are persisted — the claim's
exactly-one-succeeds guarantee fails on this code. -/
theorem booking_race_creates_double_booking :
    (bookPhaseResp raceResult.1.1).status = 201 ∧
    (bookPhaseResp raceResult.1.2).status = 201 ∧
    raceResult.2.appointments.map (fun a => (a.doctorId, a.timeSlot))
      = [(1, "Mon-09:00"), (1, "Mon-09:00")] ∧
    raceResult.2.appointments.length = 2 := by
  exact ⟨rfl, rfl, rfl, rfl⟩

/-! ## Cancellation lemmas -/

theorem cancel_notfound_eq {r : CancelReq} {db : DB} {now : Nat} {t : Token} {aid : Nat}
    (hauth : r.auth = some t) (hver : jwtVerify t now = true)
    (hid : r.appointmentId = some aid)
    (hfind : db.appointments.find? (fun a => a._id == aid) = none) :
    cancelAppointment r db now CancelFailure.noFail
      = ({ status := 404, body := msgJson "Appointment not found." }, db) := by
  simp [cancelAppointment, authenticateToken, hauth, hver, hid, hfind]

theorem cancel_success_eq {r : CancelReq} {db : DB} {now : Nat} {t : Token} {aid : Nat}
    {appt : Appointment}
    (hauth : r.auth = some t) (hver : jwtVerify t now = true)
    (hid : r.appointmentId = some aid)
    (hfind : db.appointments.find? (fun a => a._id == aid) = some appt) :
    cancelAppointment r db now CancelFailure.noFail
      = ({ status := 200, body := msgJson "Appointment cancelled successfully!" },
         { db with appointments := db.appointments.filter (fun a => !(a._id == aid)) }) := by
  simp [cancelAppointment, authenticateToken, hauth, hver, hid, hfind, patientPullAppointment]

theorem cancel_fail_unchanged (r : CancelReq) (db : DB) (now : Nat) (fail : CancelFailure)
    (hfail : fail ≠ CancelFailure.noFail) :
    (cancelAppointment r db now fail).2 = db := by
  unfold cancelAppointment authenticateToken
  cases hA : r.auth with
  | none => rfl
  | some t =>
    by_cases hv : jwtVerify t now
    · cases hid : r.appointmentId with
      | none => simp [hv]
      | some aid =>
        cases fail with
        | noFail => exact absurd rfl hfail
        | atLookup => simp [hv]
        | atDelete =>
          cases hf : db.appointments.find? (fun a => a._id == aid) with
          | none => simp [hv, hf]
          | some a => simp [hv, hf]
        | atDetach =>
          cases hf : db.appointments.find? (fun a => a._id == aid) with
          | none => simp [hv, hf]
          | some a => simp [hv, hf]
    · simp [hv]

theorem cancel_patients_unchanged (r : CancelReq) (db : DB) (now : Nat) (fail : CancelFailure) :
    (cancelAppointment r db now fail).2.patients = db.patients := by
  unfold cancelAppointment authenticateToken patientPullAppointment
  cases hA : r.auth with
  | none => rfl
  | some t =>
    by_cases hv : jwtVerify t now
    · cases hid : r.appointmentId with
      | none => simp [hv]
      | some aid =>
        cases hf : db.appointments.find? (fun a => a._id == aid) with
        | none => cases fail <;> simp [hv, hf]
        | some a => cases fail <;> simp [hv, hf]
    · simp [hv]

/-- C2: cancellation is all-or-nothing.  With a valid token: an
unresolvable appointmentId yields 404 with the store untouched; a store
failure injected at the lookup, delete, or detach step leaves the store
exactly as it was (the transaction aborts — the appointment is never
deleted without the detach step also succeeding, and vice versa); and
only the fully successful run commits, removing exactly the appointment
record; the patient collection is never altered (the detach `$pull`
names a path absent from PatientSchema, so strict mode makes it a
no-op). -/
theorem cancelAppointment_all_or_nothing (r : CancelReq) (db : DB) (now : Nat)
    (fail : CancelFailure) (t : Token) (aid : Nat)
    (hauth : r.auth = some t) (hver : jwtVerify t now = true)
    (hid : r.appointmentId = some aid) :
    (fail = CancelFailure.noFail →
       db.appointments.find? (fun a => a._id == aid) = none →
       cancelAppointment r db now fail
         = ({ status := 404, body := msgJson "Appointment not found." }, db))
    ∧ (fail ≠ CancelFailure.noFail → (cancelAppointment r db now fail).2 = db)
    ∧ (fail = CancelFailure.noFail →
        ∀ appt, db.appointments.find? (fun a => a._id == aid) = some appt →
        cancelAppointment r db now fail
          = ({ status := 200, body := msgJson "Appointment cancelled successfully!" },
             { db with appointments := db.appointments.filter (fun a => !(a._id == aid)) }))
    ∧ (cancelAppointment r db now fail).2.patients = db.patients := by
  refine ⟨?_, ?_, ?_, cancel_patients_unchanged r db now fail⟩
  · intro hf hfind
    subst hf
    exact cancel_notfound_eq hauth hver hid hfind
  · intro hf
    exact cancel_fail_unchanged r db now fail hf
  · intro hf appt hfind
    subst hf
    exact cancel_success_eq hauth hver hid hfind

/-- C2 witness: on a store holding exactly one appointment (id 7), a
cancel of the missing id 99 gives 404 and changes nothing; injected
failures at delete/detach change nothing; the clean run removes the
appointment. -/
theorem cancelAppointment_all_or_nothing_witness :
    cancelAppointment reqC2miss dbC2 0 CancelFailure.noFail
      = ({ status := 404, body := msgJson "Appointment not found." }, dbC2)
    ∧ (cancelAppointment reqC2 dbC2 0 CancelFailure.atDelete).2 = dbC2
    ∧ (cancelAppointment reqC2 dbC2 0 CancelFailure.atDetach).2 = dbC2
    ∧ cancelAppointment reqC2 dbC2 0 CancelFailure.noFail
      = ({ status := 200, body := msgJson "Appointment cancelled successfully!" },
         { dbC2 with appointments := dbC2.appointments.filter (fun a => !(a._id == 7)) }) := by
  refine ⟨?_, ?_, ?_, ?_⟩
  · exact (cancelAppointment_all_or_nothing reqC2miss dbC2 0 CancelFailure.noFail tokC2 99
      rfl (by decide) rfl).1 rfl (by decide)
  · exact (cancelAppointment_all_or_nothing reqC2 dbC2 0 CancelFailure.atDelete tokC2 7
      rfl (by decide) rfl).2.1 (by decide)
  · exact (cancelAppointment_all_or_nothing reqC2 dbC2 0 CancelFailure.atDetach tokC2 7
      rfl (by decide) rfl).2.1 (by decide)
  · exact (cancelAppointment_all_or_nothing reqC2 dbC2 0 CancelFailure.noFail tokC2 7
      rfl (by decide) rfl).2.2.1 rfl apptC2 (by decide)

/-- C9: the detach step takes the patientId from the request body, not
from the record the appointment refers to.  When the body patientId is
absent or names some other patient, the appointment is still deleted,
the transaction commits with 200, and the referenced patient's stored
record (like every patient record) is left unchanged. -/
theorem cancel_detach_uses_body_patientId (r : CancelReq) (db : DB) (now : Nat) (t : Token)
    (aid : Nat) (appt : Appointment)
    (hauth : r.auth = some t) (hver : jwtVerify t now = true)
    (hid : r.appointmentId = some aid)
    (hfind : db.appointments.find? (fun a => a._id == aid) = some appt)
    (hpid : r.patientId = none ∨
            ∀ p ∈ db.patients, p.email = appt.patientEmail → r.patientId ≠ some p._id) :
    cancelAppointment r db now CancelFailure.noFail
      = ({ status := 200, body := msgJson "Appointment cancelled successfully!" },
         { db with appointments := db.appointments.filter (fun a => !(a._id == aid)) })
    ∧ (cancelAppointment r db now CancelFailure.noFail).2.patients = db.patients := by
  exact ⟨cancel_success_eq hauth hver hid hfind,
         cancel_patients_unchanged r db now CancelFailure.noFail⟩

/-- C9 witness: appointment 6 refers (by patientEmail) to patient 3, the
request body names patientId 2; the appointment is deleted, the call
commits, and the patient collection is untouched. -/
theorem cancel_detach_uses_body_patientId_witness :
    cancelAppointment reqC9 dbC9 0 CancelFailure.noFail
      = ({ status := 200, body := msgJson "Appointment cancelled successfully!" },
         { dbC9 with appointments := dbC9.appointments.filter (fun a => !(a._id == 6)) })
    ∧ (cancelAppointment reqC9 dbC9 0 CancelFailure.noFail).2.patients = dbC9.patients := by
  exact cancel_detach_uses_body_patientId reqC9 dbC9 0 tokC9 6 apptC9
    rfl (by decide) rfl (by decide) (Or.inr (by decide))

/-! ## Availability round-trip lemmas -/

theorem find?_map_update (did : Nat) (av : List Availability) :
    ∀ (l : List Doctor) (d : Doctor),
      l.find? (fun x => x._id == did) = some d →
      (l.map (fun x => if x._id == did then { x with availability := av } else x)).find?
        (fun x => x._id == did) = some { d with availability := av } := by
  intro l
  induction l with
  | nil => intro d h; simp at h
  | cons x xs ih =>
    intro d h
    by_cases hx : (x._id == did) = true
    · simp only [List.find?_cons, hx] at h
      injection h with h'
      subst h'
      simp only [List.map_cons, if_pos hx]
      simp only [List.find?_cons, hx]
    · simp only [List.find?_cons, hx] at h
      simp only [List.map_cons, if_neg hx, List.find?_cons]
      simp only [Bool.not_eq_true] at hx
      simp only [hx]
      exact ih d h

theorem castAvailabilityList_length :
    ∀ (l : List AvailabilityInput) (av : List Availability),
      castAvailabilityList l = some av → av.length = l.length := by
  intro l
  induction l with
  | nil =>
    intro av h
    unfold castAvailabilityList at h
    injection h with h'
    subst h'
    rfl
  | cons e rest ih =>
    intro av h
    unfold castAvailabilityList at h
    cases hc : castAvailability e with
    | none => rw [hc] at h; simp at h
    | some a =>
      rw [hc] at h
      cases hr : castAvailabilityList rest with
      | none => rw [hr] at h; simp at h
      | some tl =>
        rw [hr] at h
        injection h with h'
        subst h'
        simp [ih tl hr]

theorem castAvailability_spec (e : AvailabilityInput) (a : Availability)
    (h : castAvailability e = some a) :
    e.day = some a.day ∧ e.startTime = some a.startTime ∧ e.endTime = some a.endTime
    ∧ a.location = e.location.getD "Office" := by
  unfold castAvailability at h
  cases hd : e.day with
  | none => rw [hd] at h; simp at h
  | some d =>
    cases hs : e.startTime with
    | none => rw [hd, hs] at h; simp at h
    | some s =>
      cases ht : e.endTime with
      | none => rw [hd, hs, ht] at h; simp at h
      | some t =>
        rw [hd, hs, ht] at h
        simp only [] at h
        by_cases hne : d ≠ "" ∧ s ≠ "" ∧ t ≠ ""
        · rw [if_pos hne] at h
          injection h with h'
          subst h'
          simp
        · rw [if_neg hne] at h
          simp at h

theorem setAvailability_success_eq {r : SetAvailabilityReq} {db : DB} {now : Nat} {t : Token}
    {did : Nat} {ins : List AvailabilityInput} {av : List Availability} {d : Doctor}
    (hauth : r.auth = some t) (hver : jwtVerify t now = true)
    (hdid : r.doctorId = some did) (hins : r.availability = some ins)
    (hfound : db.doctors.find? (fun x => x._id == did) = some d)
    (hcast : castAvailabilityList ins = some av) :
    setAvailability r db now
      = ({ status := 200,
           body := Json.obj [("message", Json.str "Availability updated successfully!"),
                             ("doctor", Json.obj [("_id", Json.num (d._id : Int)),
                                                  ("availability", Json.arr (av.map availabilityJson))])] },
         { db with doctors := db.doctors.map (fun x =>
             if x._id == did then { x with availability := av } else x) }) := by
  simp [setAvailability, authenticateToken, hauth, hver, hdid, hins, hfound, hcast]

theorem getDoctor_found_eq {did : Nat} {t : Token} {db : DB} {now : Nat} {d : Doctor}
    (hver : jwtVerify t now = true)
    (hfound : db.doctors.find? (fun x => x._id == did) = some d) :
    getDoctor { doctorId := did, auth := some t } db now
      = ({ status := 200,
           body := Json.obj [("availability", Json.arr (d.availability.map availabilityJson))] },
         db) := by
  simp [getDoctor, authenticateToken, hver, hfound]

/-- C4 counterexample: the claim fails as stated.  An accepted
availability list whose entry omits `location` is stored with the schema
default `"Office"`, so the subsequent `get` does not return the same
location values that were set: the set entry's location is `none`, the
returned one is `"Office"`. -/
theorem setAvailability_get_roundtrip_counterexample :
    (setAvailability reqC4 dbC4 0).1.status = 200
    ∧ (getDoctor { doctorId := 0, auth := some tokC4 } dbC4' 0).1.body
      = Json.obj [("availability", Json.arr
          [Json.obj [("day", Json.str "Mon"), ("startTime", Json.str "09:00"),
                     ("endTime", Json.str "10:00"), ("location", Json.str "Office")]])]
    ∧ (getDoctor { doctorId := 0, auth := some tokC4 } dbC4' 0).1.body
      ≠ Json.obj [("availability", Json.arr (insC4.map availabilityInputJson))]
    ∧ insC4.map (fun e => e.location) = [none] := by
  refine ⟨rfl, rfl, ?_, rfl⟩
  have h1 : (getDoctor { doctorId := 0, auth := some tokC4 } dbC4' 0).1.body
      = Json.obj [("availability", Json.arr
          [Json.obj [("day", Json.str "Mon"), ("startTime", Json.str "09:00"),
                     ("endTime", Json.str "10:00"), ("location", Json.str "Office")]])] := rfl
  rw [h1]
  simp [insC4, availabilityInputJson, optField]

/-- C4 (amended): for every doctor that resolves and every availability
list accepted by setAvailability, a subsequent availability get returns
exactly the stored cast of that list, in order: each entry keeps the
day/startTime/endTime values that were set, and keeps the location that
was set when one was given, defaulting it to "Office" when omitted; in
particular, a list in which every entry carries all four fields is
returned verbatim. -/
theorem setAvailability_get_roundtrip (r : SetAvailabilityReq) (db : DB)
    (now now2 : Nat) (t t2 : Token) (did : Nat)
    (ins : List AvailabilityInput) (av : List Availability) (d : Doctor)
    (hauth : r.auth = some t) (hver : jwtVerify t now = true)
    (hdid : r.doctorId = some did) (hins : r.availability = some ins)
    (hfound : db.doctors.find? (fun x => x._id == did) = some d)
    (hcast : castAvailabilityList ins = some av)
    (hver2 : jwtVerify t2 now2 = true) :
    getDoctor { doctorId := did, auth := some t2 } (setAvailability r db now).2 now2
      = ({ status := 200,
           body := Json.obj [("availability", Json.arr (av.map availabilityJson))] },
         (setAvailability r db now).2)
    ∧ av.length = ins.length
    ∧ (∀ e a, castAvailability e = some a →
         e.day = some a.day ∧ e.startTime = some a.startTime ∧ e.endTime = some a.endTime
         ∧ a.location = e.location.getD "Office") := by
  refine ⟨?_, castAvailabilityList_length ins av hcast,
          fun e a h => castAvailability_spec e a h⟩
  have hdb : (setAvailability r db now).2
      = { db with doctors := db.doctors.map (fun x =>
            if x._id == did then { x with availability := av } else x) } := by
    rw [setAvailability_success_eq hauth hver hdid hins hfound hcast]
  rw [hdb]
  have hfind2 : ({ db with doctors := db.doctors.map (fun x =>
        if x._id == did then { x with availability := av } else x) } : DB).doctors.find?
          (fun x => x._id == did) = some { d with availability := av } :=
    find?_map_update did av db.doctors d hfound
  exact getDoctor_found_eq hver2 hfind2

/-- C4 witness: a fully-specified entry round-trips verbatim. -/
theorem setAvailability_get_roundtrip_witness :
    getDoctor { doctorId := 0, auth := some tokC4 } (setAvailability reqC4w dbC4 0).2 0
      = ({ status := 200,
           body := Json.obj [("availability", Json.arr (avC4w.map availabilityJson))] },
         (setAvailability reqC4w dbC4 0).2) := by
  exact (setAvailability_get_roundtrip reqC4w dbC4 0 0 tokC4 tokC4 0 insC4w avC4w docC4
    rfl (by decide) rfl rfl (by decide) (by decide) (by decide)).1

/-- C5: login behaviour for both roles, for requests carrying an email
and a password.  No matching record: 401 not-found.  Record found but
hash comparison fails: 401 invalid-password.  Otherwise a token signed
with the process secret is issued whose payload carries the record's
identifier under the role-specific field (modelled by `Role`), with
`iat = now` and a one-hour expiry `exp = iat + 3600`. -/
theorem login_spec (db : DB) (now : Nat) (e pw : String)
    (he : e ≠ "") (hpw : pw ≠ "") :
    (db.patients.find? (fun p => p.email == e) = none →
       loginPatient { email := some e, password := some pw } db now
         = ({ status := 401, body := msgJson "Patient not found." }, db))
    ∧ (∀ p, db.patients.find? (fun q => q.email == e) = some p →
        bcryptCompare pw p.password = false →
        loginPatient { email := some e, password := some pw } db now
          = ({ status := 401, body := msgJson "Invalid password." }, db))
    ∧ (∀ p, db.patients.find? (fun q => q.email == e) = some p →
        bcryptCompare pw p.password = true →
        (loginPatient { email := some e, password := some pw } db now).1.status = 200
        ∧ jsonGet "token" (loginPatient { email := some e, password := some pw } db now).1.body
            = some (Json.tok (jwtSign Role.patient p._id now))
        ∧ (loginPatient { email := some e, password := some pw } db now).2 = db)
    ∧ (db.doctors.find? (fun d => d.email == e) = none →
       loginDoctor { email := some e, password := some pw } db now
         = ({ status := 401, body := msgJson "Doctor not found." }, db))
    ∧ (∀ d, db.doctors.find? (fun q => q.email == e) = some d →
        bcryptCompare pw d.password = false →
        loginDoctor { email := some e, password := some pw } db now
          = ({ status := 401, body := msgJson "Invalid password." }, db))
    ∧ (∀ d, db.doctors.find? (fun q => q.email == e) = some d →
        bcryptCompare pw d.password = true →
        (loginDoctor { email := some e, password := some pw } db now).1.status = 200
        ∧ jsonGet "token" (loginDoctor { email := some e, password := some pw } db now).1.body
            = some (Json.tok (jwtSign Role.doctor d._id now))
        ∧ (loginDoctor { email := some e, password := some pw } db now).2 = db)
    ∧ (∀ r id n, jwtSign r id n
        = { payload := { role := r, id := id, iat := n, exp := n + 3600 }, sig := jwtSecret }) := by
  refine ⟨?_, ?_, ?_, ?_, ?_, ?_, fun r id n => rfl⟩
  · intro hfind
    simp [loginPatient, truthyStr, he, hpw, hfind]
  · intro p hfind hc
    simp [loginPatient, truthyStr, he, hpw, hfind, hc]
  · intro p hfind hc
    refine ⟨?_, ?_, ?_⟩ <;>
      simp [loginPatient, truthyStr, he, hpw, hfind, hc, jsonGet, List.find?]
  · intro hfind
    simp [loginDoctor, doctorFindByEmail, hfind]
  · intro d hfind hc
    simp [loginDoctor, doctorFindByEmail, hfind, hc]
  · intro d hfind hc
    refine ⟨?_, ?_, ?_⟩ <;>
      simp [loginDoctor, doctorFindByEmail, hfind, hc, jsonGet, List.find?]

/-- C5 witness: on a store with patient Carol (id 3) and doctor Dr. B
(id 4): an unknown email is 401 not-found, a wrong password is 401
invalid, and correct credentials yield 200 with the role-tagged signed
token. -/
theorem login_spec_witness :
    loginPatient { email := some "nobody@x.com", password := some "p" } dbC5 0
      = ({ status := 401, body := msgJson "Patient not found." }, dbC5)
    ∧ loginPatient { email := some "c@x.com", password := some "wrong" } dbC5 0
      = ({ status := 401, body := msgJson "Invalid password." }, dbC5)
    ∧ (loginPatient { email := some "c@x.com", password := some "pwc" } dbC5 0).1.status = 200
    ∧ jsonGet "token" (loginPatient { email := some "c@x.com", password := some "pwc" } dbC5 0).1.body
        = some (Json.tok (jwtSign Role.patient 3 0))
    ∧ loginDoctor { email := some "d@x.com", password := some "wrong" } dbC5 0
      = ({ status := 401, body := msgJson "Invalid password." }, dbC5)
    ∧ (loginDoctor { email := some "d@x.com", password := some "pwd" } dbC5 0).1.status = 200
    ∧ jsonGet "token" (loginDoctor { email := some "d@x.com", password := some "pwd" } dbC5 0).1.body
        = some (Json.tok (jwtSign Role.doctor 4 0)) := by
  refine ⟨?_, ?_, ?_, ?_, ?_, ?_, ?_⟩
  · exact (login_spec dbC5 0 "nobody@x.com" "p" (by decide) (by decide)).1 (by decide)
  · exact (login_spec dbC5 0 "c@x.com" "wrong" (by decide) (by decide)).2.1 patC5
      (by decide) (by decide)
  · exact ((login_spec dbC5 0 "c@x.com" "pwc" (by decide) (by decide)).2.2.1 patC5
      (by decide) (by decide)).1
  · exact ((login_spec dbC5 0 "c@x.com" "pwc" (by decide) (by decide)).2.2.1 patC5
      (by decide) (by decide)).2.1
  · exact (login_spec dbC5 0 "d@x.com" "wrong" (by decide) (by decide)).2.2.2.2.1 docC5
      (by decide) (by decide)
  · exact ((login_spec dbC5 0 "d@x.com" "pwd" (by decide) (by decide)).2.2.2.2.2.1 docC5
      (by decide) (by decide)).1
  · exact ((login_spec dbC5 0 "d@x.com" "pwd" (by decide) (by decide)).2.2.2.2.2.1 docC5
      (by decide) (by decide)).2.1

/-- C7: a registration (doctor or patient) that passes field validation
but whose email matches an already-persisted record of the same kind is
rejected with the conflict message and leaves the store — every existing
record included — exactly as it was.  The two kinds are independent
implications, each applicable on its own to any store. -/
theorem register_duplicate_email_conflict (db : DB) :
    (∀ rd : RegisterDoctorReq, registerDoctorValid rd = true →
       (∃ d ∈ db.doctors, d.email = rd.email.getD "") →
       registerDoctor rd db
         = ({ status := 400, body := msgJson "Doctor with this email already exists." }, db))
    ∧ (∀ rp : RegisterPatientReq, registerPatientValid rp = true →
       (∃ p ∈ db.patients, p.email = rp.email.getD "") →
       registerPatient rp db
         = ({ status := 400, body := msgJson "Patient with this email already exists." }, db)) := by
  constructor
  · intro rd hvd hdup_d
    have hs : (db.doctors.find? (fun d => d.email == rd.email.getD "")).isSome = true := by
      rw [List.find?_isSome]
      obtain ⟨d, hd, he⟩ := hdup_d
      exact ⟨d, hd, by simp [he]⟩
    obtain ⟨d, hd⟩ := Option.isSome_iff_exists.mp hs
    simp [registerDoctor, hvd, hd]
  · intro rp hvp hdup_p
    have hs : (db.patients.find? (fun p => p.email == rp.email.getD "")).isSome = true := by
      rw [List.find?_isSome]
      obtain ⟨p, hp, he⟩ := hdup_p
      exact ⟨p, hp, by simp [he]⟩
    obtain ⟨p, hp⟩ := Option.isSome_iff_exists.mp hs
    simp [registerPatient, hvp, hp]

/-- C7 witness: the doctor half on a store holding only the duplicate
doctor (the spec's re-registration scenario) and the patient half on a
store holding only the duplicate patient — each conflict response leaves
its store unchanged. -/
theorem register_duplicate_email_conflict_witness :
    registerDoctor regDocC7 dbC7d
      = ({ status := 400, body := msgJson "Doctor with this email already exists." }, dbC7d)
    ∧ registerPatient regPatC7 dbC7p
      = ({ status := 400, body := msgJson "Patient with this email already exists." }, dbC7p) := by
  exact ⟨(register_duplicate_email_conflict dbC7d).1 regDocC7 (by decide)
           ⟨docC7, by decide, rfl⟩,
         (register_duplicate_email_conflict dbC7p).2 regPatC7 (by decide)
           ⟨patC7, by decide, rfl⟩⟩

/-- C8: a registration request with any required field missing or falsy
— zero numeric fields (a doctor's experience, a patient's age) included
— is rejected with 400 "All fields are required." and nothing is
persisted; a present-but-zero experience or age makes the request
invalid. -/
theorem register_missing_or_falsy_field_rejected (db : DB)
    (rd : RegisterDoctorReq) (rp : RegisterPatientReq)
    (hvd : registerDoctorValid rd = false)
    (hvp : registerPatientValid rp = false) :
    registerDoctor rd db = ({ status := 400, body := msgJson "All fields are required." }, db)
    ∧ registerPatient rp db = ({ status := 400, body := msgJson "All fields are required." }, db)
    ∧ (∀ r : RegisterDoctorReq, r.experience = some 0 → registerDoctorValid r = false)
    ∧ (∀ r : RegisterPatientReq, r.age = some 0 → registerPatientValid r = false) := by
  refine ⟨?_, ?_, ?_, ?_⟩
  · simp [registerDoctor, hvd]
  · simp [registerPatient, hvp]
  · intro r hr
    simp [registerDoctorValid, truthyInt, hr]
  · intro r hr
    simp [registerPatientValid, truthyInt, hr]

/-- C8 witness: a doctor registration with experience 0 and a patient
registration with age 0 (all other fields present) are both rejected
with 400 and do not change the store. -/
theorem register_missing_or_falsy_field_rejected_witness :
    registerDoctor regDocC8 emptyDB
      = ({ status := 400, body := msgJson "All fields are required." }, emptyDB)
    ∧ registerPatient regPatC8 emptyDB
      = ({ status := 400, body := msgJson "All fields are required." }, emptyDB) := by
  have h := register_missing_or_falsy_field_rejected emptyDB regDocC8 regPatC8
    (by decide) (by decide)
  exact ⟨h.1, h.2.1⟩

/-! ## Password-exclusion lemmas (C6) -/

theorem hasKey_password_msgJson (s : String) :
    jsonHasKey "password" (msgJson s) = false := by
  simp [msgJson, jsonHasKey, jsonFieldsHaveKey]

theorem hasKey_password_availabilityJson (a : Availability) :
    jsonHasKey "password" (availabilityJson a) = false := by
  simp [availabilityJson, jsonHasKey, jsonFieldsHaveKey]

theorem elemsHaveKey_password_availability (l : List Availability) :
    jsonElemsHaveKey "password" (l.map availabilityJson) = false := by
  induction l with
  | nil => simp [jsonElemsHaveKey]
  | cons a t ih => simp [jsonElemsHaveKey, hasKey_password_availabilityJson, ih]

theorem hasKey_password_doctorPublicJson (d : Doctor) :
    jsonHasKey "password" (doctorPublicJson d) = false := by
  simp [doctorPublicJson, jsonHasKey, jsonFieldsHaveKey,
        elemsHaveKey_password_availability]

theorem elemsHaveKey_password_doctors (l : List Doctor) :
    jsonElemsHaveKey "password" (l.map doctorPublicJson) = false := by
  induction l with
  | nil => simp [jsonElemsHaveKey]
  | cons d t ih => simp [jsonElemsHaveKey, hasKey_password_doctorPublicJson, ih]

theorem hasKey_password_appointmentJson (a : Appointment) :
    jsonHasKey "password" (appointmentJson a) = false := by
  simp [appointmentJson, jsonHasKey, jsonFieldsHaveKey]

theorem registerDoctor_no_password (r : RegisterDoctorReq) (db : DB) :
    jsonHasKey "password" (registerDoctor r db).1.body = false := by
  unfold registerDoctor
  by_cases hv : registerDoctorValid r = true
  · cases hd : db.doctors.find? (fun d => d.email == r.email.getD "") with
    | some d => simp [hv, hd, hasKey_password_msgJson]
    | none =>
      cases hc : castAvailabilityList (r.availability.getD []) with
      | none => simp [hv, hd, hc, hasKey_password_msgJson]
      | some av => simp [hv, hd, hc, jsonHasKey, jsonFieldsHaveKey]
  · simp [hv, hasKey_password_msgJson]

theorem registerPatient_no_password (r : RegisterPatientReq) (db : DB) :
    jsonHasKey "password" (registerPatient r db).1.body = false := by
  unfold registerPatient
  by_cases hv : registerPatientValid r = true
  · cases hd : db.patients.find? (fun p => p.email == r.email.getD "") with
    | some p => simp [hv, hd, hasKey_password_msgJson]
    | none => simp [hv, hd, hasKey_password_msgJson]
  · simp [hv, hasKey_password_msgJson]

theorem loginPatient_no_password (r : LoginReq) (db : DB) (now : Nat) :
    jsonHasKey "password" (loginPatient r db now).1.body = false := by
  unfold loginPatient
  by_cases hv : (truthyStr r.email && truthyStr r.password) = true
  · cases hd : db.patients.find? (fun p => p.email == r.email.getD "") with
    | none => simp [hv, hd, hasKey_password_msgJson]
    | some p =>
      by_cases hc : bcryptCompare (r.password.getD "") p.password = true
      · simp [hv, hd, hc, jsonHasKey, jsonFieldsHaveKey]
      · simp [hv, hd, hc, hasKey_password_msgJson]
  · simp [hv, hasKey_password_msgJson]

theorem loginDoctor_no_password (r : LoginReq) (db : DB) (now : Nat) :
    jsonHasKey "password" (loginDoctor r db now).1.body = false := by
  unfold loginDoctor
  cases hd : doctorFindByEmail r.email db with
  | none => simp [hd, hasKey_password_msgJson]
  | some d =>
    cases hp : r.password with
    | none => simp [hd, hp, hasKey_password_msgJson]
    | some pw =>
      by_cases hc : bcryptCompare pw d.password = true
      · simp [hd, hp, hc, jsonHasKey, jsonFieldsHaveKey]
      · simp [hd, hp, hc, hasKey_password_msgJson]

theorem getDoctor_no_password (r : GetDoctorReq) (db : DB) (now : Nat) :
    jsonHasKey "password" (getDoctor r db now).1.body = false := by
  unfold getDoctor authenticateToken
  cases ha : r.auth with
  | none => simp [hasKey_password_msgJson]
  | some t =>
    by_cases hv : jwtVerify t now = true
    · cases hd : db.doctors.find? (fun d => d._id == r.doctorId) with
      | none => simp [hv, hd, hasKey_password_msgJson]
      | some d =>
        simp [hv, hd, jsonHasKey, jsonFieldsHaveKey, elemsHaveKey_password_availability]
    · simp [hv, hasKey_password_msgJson]

theorem setAvailability_no_password (r : SetAvailabilityReq) (db : DB) (now : Nat) :
    jsonHasKey "password" (setAvailability r db now).1.body = false := by
  unfold setAvailability authenticateToken
  cases ha : r.auth with
  | none => simp [hasKey_password_msgJson]
  | some t =>
    by_cases hv : jwtVerify t now = true
    · by_cases hok : (r.doctorId.isSome && r.availability.isSome) = true
      · cases hd : db.doctors.find? (fun d => d._id == r.doctorId.getD 0) with
        | none => simp [hv, hok, hd, hasKey_password_msgJson]
        | some d =>
          cases hc : castAvailabilityList (r.availability.getD []) with
          | none => simp [hv, hok, hd, hc, hasKey_password_msgJson]
          | some av =>
            simp [hv, hok, hd, hc, jsonHasKey, jsonFieldsHaveKey,
                  elemsHaveKey_password_availability]
      · simp [hv, hok, hasKey_password_msgJson]
    · simp [hv, hasKey_password_msgJson]

theorem bookStep_no_password (r : BookReq) (ph : BookPhase) (db : DB)
    (h : jsonHasKey "password" (bookPhaseResp ph).body = false) :
    jsonHasKey "password" (bookPhaseResp (bookStep r ph db).1).body = false := by
  cases ph with
  | start =>
    unfold bookStep
    by_cases hv : validBookReq r = true
    · by_cases hs : slotTaken (r.doctorId.getD 0) (r.timeSlot.getD "") db = true
      · simp [hv, hs, bookPhaseResp, hasKey_password_msgJson]
      · simp [hv, hs, bookPhaseResp, hasKey_password_msgJson]
    · simp [hv, bookPhaseResp, hasKey_password_msgJson]
  | toInsert => simp [bookStep, bookPhaseResp, hasKey_password_msgJson]
  | toPush a =>
    simp [bookStep, bookPhaseResp, appointmentJson, jsonHasKey, jsonFieldsHaveKey]
  | responded resp => simpa [bookStep, bookPhaseResp] using h

theorem bookAppointment_no_password (r : BookReq) (db : DB) :
    jsonHasKey "password" (bookAppointment r db).1.body = false := by
  unfold bookAppointment
  apply bookStep_no_password
  apply bookStep_no_password
  apply bookStep_no_password
  simp [bookPhaseResp, hasKey_password_msgJson]

theorem cancelAppointment_no_password (r : CancelReq) (db : DB) (now : Nat)
    (fail : CancelFailure) :
    jsonHasKey "password" (cancelAppointment r db now fail).1.body = false := by
  unfold cancelAppointment authenticateToken
  cases ha : r.auth with
  | none => simp [hasKey_password_msgJson]
  | some t =>
    by_cases hv : jwtVerify t now = true
    · cases hid : r.appointmentId with
      | none => simp [hv, hasKey_password_msgJson]
      | some aid =>
        cases hf : db.appointments.find? (fun a => a._id == aid) with
        | none => cases fail <;> simp [hv, hf, hasKey_password_msgJson]
        | some a => cases fail <;> simp [hv, hf, hasKey_password_msgJson]
    · simp [hv, hasKey_password_msgJson]

theorem searchDoctors_no_password (db : DB) :
    jsonHasKey "password" (searchDoctors db).1.body = false := by
  simp [searchDoctors, jsonHasKey, elemsHaveKey_password_doctors]

/-- C6: no endpoint response — success or error — ever contains a field
named "password", at any depth of its JSON body; in particular
searchDoctors returns every doctor record with the password path
excluded (select("-password")). -/
theorem no_response_has_password_field (req : ApiRequest) (db : DB) :
    jsonHasKey "password" (handle req db).1.body = false := by
  cases req with
  | registerDoctorReq r => exact registerDoctor_no_password r db
  | registerPatientReq r => exact registerPatient_no_password r db
  | loginPatientReq r now => exact loginPatient_no_password r db now
  | loginDoctorReq r now => exact loginDoctor_no_password r db now
  | getDoctorReq r now => exact getDoctor_no_password r db now
  | setAvailabilityReq r now => exact setAvailability_no_password r db now
  | bookAppointmentReq r => exact bookAppointment_no_password r db
  | cancelAppointmentReq r now fail => exact cancelAppointment_no_password r db now fail
  | searchDoctorsReq => exact searchDoctors_no_password db

/-! ## Status-invariant lemmas (C10) -/

theorem registerDoctor_appointments_eq (r : RegisterDoctorReq) (db : DB) :
    (registerDoctor r db).2.appointments = db.appointments := by
  unfold registerDoctor
  by_cases hv : registerDoctorValid r = true
  · cases hd : db.doctors.find? (fun d => d.email == r.email.getD "") with
    | some d => simp [hv, hd]
    | none =>
      cases hc : castAvailabilityList (r.availability.getD []) with
      | none => simp [hv, hd, hc]
      | some av => simp [hv, hd, hc]
  · simp [hv]

theorem registerPatient_appointments_eq (r : RegisterPatientReq) (db : DB) :
    (registerPatient r db).2.appointments = db.appointments := by
  unfold registerPatient
  by_cases hv : registerPatientValid r = true
  · cases hd : db.patients.find? (fun p => p.email == r.email.getD "") with
    | some p => simp [hv, hd]
    | none => simp [hv, hd]
  · simp [hv]

theorem loginPatient_state_eq (r : LoginReq) (db : DB) (now : Nat) :
    (loginPatient r db now).2 = db := by
  unfold loginPatient
  by_cases hv : (truthyStr r.email && truthyStr r.password) = true
  · cases hd : db.patients.find? (fun p => p.email == r.email.getD "") with
    | none => simp [hv, hd]
    | some p =>
      by_cases hc : bcryptCompare (r.password.getD "") p.password = true
      · simp [hv, hd, hc]
      · simp [hv, hd, hc]
  · simp [hv]

theorem loginDoctor_state_eq (r : LoginReq) (db : DB) (now : Nat) :
    (loginDoctor r db now).2 = db := by
  unfold loginDoctor
  cases hd : doctorFindByEmail r.email db with
  | none => simp [hd]
  | some d =>
    cases hp : r.password with
    | none => simp [hd, hp]
    | some pw =>
      by_cases hc : bcryptCompare pw d.password = true
      · simp [hd, hp, hc]
      · simp [hd, hp, hc]

theorem getDoctor_state_eq (r : GetDoctorReq) (db : DB) (now : Nat) :
    (getDoctor r db now).2 = db := by
  unfold getDoctor authenticateToken
  cases ha : r.auth with
  | none => rfl
  | some t =>
    by_cases hv : jwtVerify t now = true
    · cases hd : db.doctors.find? (fun d => d._id == r.doctorId) with
      | none => simp [hv, hd]
      | some d => simp [hv, hd]
    · simp [hv]

theorem setAvailability_appointments_eq (r : SetAvailabilityReq) (db : DB) (now : Nat) :
    (setAvailability r db now).2.appointments = db.appointments := by
  unfold setAvailability authenticateToken
  cases ha : r.auth with
  | none => rfl
  | some t =>
    by_cases hv : jwtVerify t now = true
    · by_cases hok : (r.doctorId.isSome && r.availability.isSome) = true
      · cases hd : db.doctors.find? (fun d => d._id == r.doctorId.getD 0) with
        | none => simp [hv, hok, hd]
        | some d =>
          cases hc : castAvailabilityList (r.availability.getD []) with
          | none => simp [hv, hok, hd, hc]
          | some av => simp [hv, hok, hd, hc]
      · simp [hv, hok]
    · simp [hv]

theorem cancelAppointment_appointments_sub (r : CancelReq) (db : DB) (now : Nat)
    (fail : CancelFailure) (a : Appointment)
    (ha : a ∈ (cancelAppointment r db now fail).2.appointments) :
    a ∈ db.appointments := by
  revert ha
  unfold cancelAppointment authenticateToken patientPullAppointment
  cases hA : r.auth with
  | none => exact fun ha => ha
  | some t =>
    by_cases hv : jwtVerify t now = true
    · cases hid : r.appointmentId with
      | none => simp [hv]
      | some aid =>
        cases hf : db.appointments.find? (fun x => x._id == aid) with
        | none => cases fail <;> simp [hv, hf]
        | some x =>
          cases fail <;> simp [hv, hf] <;> intros <;> assumption
    · simp [hv]

theorem bookStep_booked (r : BookReq) (ph : BookPhase) (db : DB)
    (h : ∀ a ∈ db.appointments, a.status = "Booked") :
    ∀ a ∈ (bookStep r ph db).2.appointments, a.status = "Booked" := by
  cases ph with
  | start =>
    unfold bookStep
    by_cases hv : validBookReq r = true
    · by_cases hs : slotTaken (r.doctorId.getD 0) (r.timeSlot.getD "") db = true
      · simpa [hv, hs] using h
      · simpa [hv, hs] using h
    · simpa [hv] using h
  | toInsert =>
    intro a ha
    simp only [bookStep] at ha
    rcases List.mem_append.mp ha with hmem | hnew
    · exact h a hmem
    · rw [List.mem_singleton.mp hnew]
      rfl
  | toPush x => simpa [bookStep, patientPushAppointment] using h
  | responded resp => simpa [bookStep] using h

theorem bookAppointment_booked (r : BookReq) (db : DB)
    (h : ∀ a ∈ db.appointments, a.status = "Booked") :
    ∀ a ∈ (bookAppointment r db).2.appointments, a.status = "Booked" := by
  unfold bookAppointment
  exact bookStep_booked r _ _ (bookStep_booked r _ _ (bookStep_booked r _ _ h))

theorem handle_preserves_booked (req : ApiRequest) (db : DB)
    (h : ∀ a ∈ db.appointments, a.status = "Booked") :
    ∀ a ∈ (handle req db).2.appointments, a.status = "Booked" := by
  cases req with
  | registerDoctorReq r =>
    intro a ha
    rw [handle, registerDoctor_appointments_eq] at ha
    exact h a ha
  | registerPatientReq r =>
    intro a ha
    rw [handle, registerPatient_appointments_eq] at ha
    exact h a ha
  | loginPatientReq r now =>
    intro a ha
    rw [handle, loginPatient_state_eq] at ha
    exact h a ha
  | loginDoctorReq r now =>
    intro a ha
    rw [handle, loginDoctor_state_eq] at ha
    exact h a ha
  | getDoctorReq r now =>
    intro a ha
    rw [handle, getDoctor_state_eq] at ha
    exact h a ha
  | setAvailabilityReq r now =>
    intro a ha
    rw [handle, setAvailability_appointments_eq] at ha
    exact h a ha
  | bookAppointmentReq r => exact bookAppointment_booked r db h
  | cancelAppointmentReq r now fail =>
    intro a ha
    exact h a (cancelAppointment_appointments_sub r db now fail a ha)
  | searchDoctorsReq => exact h

/-- C10: in every store state reachable through the public endpoints
from the empty store, every persisted Appointment has status "Booked":
booking only ever inserts that status and cancellation deletes records
outright, so no other status value is reachable. -/
theorem appointment_status_always_booked (db : DB) (h : Reachable db) :
    ∀ a, a ∈ db.appointments → a.status = "Booked" := by
  induction h with
  | init => intro a ha; simp [emptyDB] at ha
  | step req db' hr ih =>
    exact fun a ha => handle_preserves_booked req db' (fun x hx => ih x hx) a ha

/-- C10 witness: the store reached by one concrete booking holds the
booked appointment, and the invariant instantiates to it. -/
theorem appointment_status_always_booked_witness : apptC10.status = "Booked" := by
  have hreach : Reachable dbC10 :=
    Reachable.step (ApiRequest.bookAppointmentReq bookReqC10) emptyDB Reachable.init
  exact appointment_status_always_booked dbC10 hreach apptC10 (by decide)
